import Mathlib

/-!
# Verification of the discord-tradebot core pipeline

Shallow embedding, in Lean 4, of the event-driven trading pipeline of the
`discord-tradebot` repository: the risk engine (`src/trading/risk.py`), the
emergency-control state machine (`src/trading/controls.py`), the execution
coordinator (`src/trading/execution.py`), the event bus
(`src/trading/events.py`), the expiration normalisation of the signal parser
(`src/trading/signal_parser.py`), and the subscriber wiring of `src/main.py`.

Python `float` prices are idealised as rationals `ℚ`; `round(x, 2)` is
modelled as exact round-half-to-even at two decimal places; `float("inf")`
becomes a dedicated constructor of an extended-risk type.
-/

namespace TradeBot

/-! ## Rounding (Python `round(x, 2)` idealised over ℚ)

Python's built-in `round` uses round-half-to-even. `rnd` is that rounding to
the nearest integer; `round2` rounds to two decimal places, as used in
`risk.py` (`round(diff * quantity * self.contract_multiplier, 2)` and
`round(sum(p.risk for p in self.open_positions), 2)`).  -/

def rnd (q : ℚ) : ℤ :=
  if q - ⌊q⌋ < 1/2 then ⌊q⌋
  else if 1/2 < q - ⌊q⌋ then ⌊q⌋ + 1
  else if ⌊q⌋ % 2 = 0 then ⌊q⌋ else ⌊q⌋ + 1

def round2 (q : ℚ) : ℚ := (rnd (q * 100) : ℚ) / 100

/-- A rational that is an exact multiple of 1/100 (the form every value
produced by `round2` takes). -/
def IsCenti (q : ℚ) : Prop := ∃ k : ℤ, q = (k : ℚ) / 100

/-! ## Data model: trade signals and positions -/

inductive OptionType
  | call
  | put
deriving DecidableEq, Repr

/-- Model of `TradeSignal` from `src/trading/signal_parser.py` (pydantic model):
symbol, strike, option type, expiration date, entry price, stop price, raw
message. Dates appear in the parser section below; the risk engine only reads
`symbol`, `entry_price` and `stop_price`. -/
structure TradeSignal where
  symbol : String
  strike : ℚ
  option_type : OptionType
  expiration_year : Int
  expiration_month : Nat
  expiration_day : Nat
  entry_price : ℚ
  stop_price : ℚ
  raw_message : String
deriving DecidableEq, Repr

/-- Model of `Position` from `src/trading/risk.py` lines 17-22. -/
structure Position where
  symbol : String
  risk : ℚ
deriving DecidableEq, Repr

/-- Configuration of `RiskManager.__init__` (`src/trading/risk.py` lines 28-38).
Python ints are modelled as `ℤ`. The mutable `open_positions` list is passed
explicitly to each operation. -/
structure RiskConfig where
  max_open_positions : ℤ
  max_risk_per_trade : ℚ
  max_total_risk : ℚ
  contract_multiplier : ℤ
deriving DecidableEq, Repr

/-- The default configuration values of `RiskManager.__init__`. -/
def defaultRiskConfig : RiskConfig :=
  { max_open_positions := 5
    max_risk_per_trade := 100
    max_total_risk := 300
    contract_multiplier := 100 }

/-- Notional risk: either a finite rational or `float("inf")`
(`src/trading/risk.py` line 46). -/
inductive TradeRisk
  | fin (q : ℚ)
  | inf
deriving DecidableEq, Repr

/-- Comparison `notional_risk > self.max_risk_per_trade` where the left side may be
`float("inf")` and the right side is a finite float. -/
def TradeRisk.gtQ : TradeRisk → ℚ → Prop
  | .inf, _ => True
  | .fin q, m => m < q

instance : ∀ (r : TradeRisk) (m : ℚ), Decidable (r.gtQ m)
  | .inf, _ => isTrue trivial
  | .fin q, m => inferInstanceAs (Decidable (m < q))

/-- Model of `RiskManager._calculate_trade_risk` (`src/trading/risk.py` lines 41-48):
`diff = entry - stop`; if `diff <= 0` return `float("inf")`, else
`round(diff * quantity * contract_multiplier, 2)`. -/
def calculate_trade_risk (cfg : RiskConfig) (signal : TradeSignal) (quantity : ℤ) : TradeRisk :=
  let diff := signal.entry_price - signal.stop_price
  if diff ≤ 0 then .inf
  else .fin (round2 (diff * quantity * cfg.contract_multiplier))

/-- The risk contribution used identically in `should_accept` (line 62) and
`register_trade` (line 74):
`notional_risk if notional_risk < self.max_risk_per_trade else 0.0`
(`float("inf") < m` is `False`, so the infinite case contributes `0.0`). -/
def risk_contribution (cfg : RiskConfig) (signal : TradeSignal) (quantity : ℤ) : ℚ :=
  match calculate_trade_risk cfg signal quantity with
  | .inf => 0
  | .fin q => if q < cfg.max_risk_per_trade then q else 0

/-- Model of `sum(p.risk for p in self.open_positions)`. -/
def totalRisk (ps : List Position) : ℚ := (ps.map Position.risk).sum

/-- Model of `RiskManager.should_accept` (`src/trading/risk.py` lines 50-66). Reason
strings carry the same meaning as the Python f-strings with the interpolated
numbers elided. -/
def should_accept (cfg : RiskConfig) (ps : List Position) (signal : TradeSignal)
    (quantity : ℤ) : Bool × String :=
  if (ps.length : ℤ) ≥ cfg.max_open_positions then
    (false, "Max open positions reached")
  else
    let notional_risk := calculate_trade_risk cfg signal quantity
    if notional_risk.gtQ cfg.max_risk_per_trade then
      (false, "Trade risk exceeds per-trade max")
    else
      let rc := risk_contribution cfg signal quantity
      let total_risk := round2 (totalRisk ps)
      if total_risk + rc ≥ cfg.max_total_risk then
        (false, "Total risk after trade exceeds limit")
      else
        (true, "Accepted")

/-- Model of `RiskManager.register_trade` (`src/trading/risk.py` lines 68-76): append a
`Position` carrying `round(risk_contribution, 2)`; no checks of any kind. -/
def register_trade (cfg : RiskConfig) (ps : List Position) (signal : TradeSignal)
    (quantity : ℤ) : List Position :=
  ps ++ [{ symbol := signal.symbol, risk := round2 (risk_contribution cfg signal quantity) }]

/-- Model of `RiskManager.close_all` (`src/trading/risk.py` lines 78-80). -/
def close_all (_ps : List Position) : List Position := []

/-! ## Emergency controls (`src/trading/controls.py`)

`EmergencyControls` holds a reference to the `RiskManager`, so its operations
act on the pair of the controls fields and the risk manager's open-position
list. -/

/-- The dataclass fields of `EmergencyControls` other than the risk-manager
reference (`src/trading/controls.py` lines 19-26). -/
structure ControlsState where
  max_consecutive_failures : ℤ
  trading_enabled : Bool
  consecutive_failures : ℤ
deriving DecidableEq, Repr

/-- The state acted on by the emergency controls: the controls fields plus the
risk manager's `open_positions`. -/
abbrev SysState := ControlsState × List Position

/-- The initial emergency state as constructed in `main_async`
(`src/main.py` lines 100-103): `trading_enabled = True`,
`consecutive_failures = 0`. -/
def initControls (maxFailures : ℤ) : ControlsState :=
  { max_consecutive_failures := maxFailures
    trading_enabled := true
    consecutive_failures := 0 }

/-- Model of `EmergencyControls.record_failure` (`src/trading/controls.py` lines 28-38):
increment `consecutive_failures`; once it reaches the threshold, set
`trading_enabled = False` and call `risk_manager.close_all()`. -/
def record_failure (s : SysState) : SysState :=
  let c := { s.1 with consecutive_failures := s.1.consecutive_failures + 1 }
  if c.consecutive_failures ≥ c.max_consecutive_failures then
    ({ c with trading_enabled := false }, close_all s.2)
  else
    (c, s.2)

/-- Model of `EmergencyControls.reset_failures` (`src/trading/controls.py` lines 40-42). -/
def reset_failures (c : ControlsState) : ControlsState :=
  { c with consecutive_failures := 0 }

/-- Model of `EmergencyControls.is_enabled` (`src/trading/controls.py` lines 44-46). -/
def is_enabled (c : ControlsState) : Bool := c.trading_enabled

/-- The operations callable on `EmergencyControls`. -/
inductive CtrlOp
  | recordFailure
  | resetFailures
  | isEnabled
deriving DecidableEq, Repr

/-- Effect of one `EmergencyControls` operation on the system state
(`is_enabled` is a pure read and leaves the state unchanged). -/
def applyCtrlOp (s : SysState) : CtrlOp → SysState
  | .recordFailure => record_failure s
  | .resetFailures => (reset_failures s.1, s.2)
  | .isEnabled => s

/-- Effect of a sequence of `EmergencyControls` operations, first to last. -/
def applyCtrlOps (s : SysState) (ops : List CtrlOp) : SysState :=
  ops.foldl applyCtrlOp s

/-! ## Subscribers wired in `main_async` (`src/main.py` lines 104-118) -/

/-- Model of `on_risk` (`src/main.py` lines 105-108): on an accepted `RiskEvent`, reset
the failure counter; otherwise do nothing. -/
def on_risk (accepted : Bool) (s : SysState) : SysState :=
  if accepted then (reset_failures s.1, s.2) else s

/-- Model of `on_order` (`src/main.py` lines 110-115): if the `OrderEvent` response
carries an `"error"` entry, record a failure; otherwise reset the counter. -/
def on_order (hasError : Bool) (s : SysState) : SysState :=
  if hasError then record_failure s else (reset_failures s.1, s.2)

/-! ## Execution coordinator (`src/trading/execution.py`) -/

/-- Broker response published in an `OrderEvent`: either the raw success
response or the error marker dict built at `src/trading/execution.py`
line 52. -/
inductive OrderResponse
  | success (payload : String)
  | error (msg : String)
deriving DecidableEq, Repr

/-- The events `ExecutionManager.handle_alert` publishes to the bus. -/
inductive PubEvent
  | riskEv (signal : TradeSignal) (accepted : Bool) (reason : String)
  | orderEv (signal : TradeSignal) (response : OrderResponse)
deriving DecidableEq, Repr

def PubEvent.isOrderEvent : PubEvent → Bool
  | .orderEv _ _ => true
  | .riskEv _ _ _ => false

/-- Whether a published event is an `OrderEvent` whose response carries the
`{"error": ...}` marker. -/
def PubEvent.isErrorOrder : PubEvent → Bool
  | .orderEv _ (.error _) => true
  | _ => false

/-- Model of `ExecutionManager.handle_alert` (`src/trading/execution.py` lines 33-59)
in isolation: the outcome of `submit_bracket_order` is a parameter
(`Except.error` models the raised exception caught at line 49).  Returns the
list of events published, in order, and the risk manager's position list
after the call. -/
def handle_alert (cfg : RiskConfig) (quantity : ℤ) (ps : List Position)
    (signal : TradeSignal) (broker : Except String String) :
    List PubEvent × List Position :=
  let (accepted, reason) := should_accept cfg ps signal quantity
  let riskEvent := PubEvent.riskEv signal accepted reason
  if !accepted then ([riskEvent], ps)
  else
    match broker with
    | .error e => ([riskEvent, .orderEv signal (.error e)], ps)
    | .ok resp =>
        ([riskEvent, .orderEv signal (.success resp)],
         register_trade cfg ps signal quantity)

/-! ## The wired per-alert pipeline (`src/main.py` + `execution.py`)

One `AlertEvent` processed end to end with the `on_risk` / `on_order`
subscribers of `main_async` installed: the kill-switch gate drops the alert
when trading is disabled; otherwise `handle_alert` runs, with `on_risk`
applied when the `RiskEvent` is published and `on_order` when the
`OrderEvent` is published (the bus awaits each subscriber before
`handle_alert` continues, so the subscriber effects are interleaved exactly
at the publish points: risk event, then — on acceptance — registration,
then order event). -/
def process_alert (cfg : RiskConfig) (quantity : ℤ) (signal : TradeSignal)
    (broker : Except String String) (s : SysState) : SysState :=
  if !s.1.trading_enabled then s
  else
    let (accepted, _) := should_accept cfg s.2 signal quantity
    let s1 := on_risk accepted s
    if !accepted then s1
    else
      match broker with
      | .error _ => on_order true s1
      | .ok _ =>
          let s2 : SysState := (s1.1, register_trade cfg s1.2 signal quantity)
          on_order false s2

/-! ## Event bus (`src/trading/events.py`)

`EventBus._subscribers` maps each event class to the list of its handlers in
subscription order.  We model the registry as a single list of
(event-type, handler) pairs in subscription order; the handlers seen for one
type are then exactly the per-type list Python keeps.  A handler that raises
is modelled as returning `Except.error`; `publish` wraps every handler call
in the `try`/`except` of `events.py` lines 139-146, so a handler fault is
recorded and the loop continues. -/

/-- The exact runtime type of an event (`type(event)` used as the registry
key at `events.py` line 137). -/
inductive EventTag
  | alertEvent
  | riskEvent
  | orderEvent
  | baseEvent
deriving DecidableEq, Repr

/-- An event instance: its exact runtime type and an opaque payload. -/
structure BusEvent where
  tag : EventTag
  payload : String
deriving DecidableEq, Repr

/-- A subscriber callback; raising an exception is modelled as `.error`. -/
abbrev Handler := BusEvent → Except String Unit

/-- The subscriber registry, as the flat list of `subscribe` calls in order. -/
abbrev Bus := List (EventTag × Handler)

/-- Model of `EventBus.subscribe` (`events.py` lines 107-119): append the handler for
its event type; duplicates allowed, no cap. -/
def subscribe (bus : Bus) (t : EventTag) (h : Handler) : Bus :=
  bus ++ [(t, h)]

/-- The handlers registered for an event type, in registration order
(`self._subscribers.get(type(event), [])` at `events.py` line 137). -/
def handlersFor (bus : Bus) (t : EventTag) : List Handler :=
  (bus.filter fun p => p.1 = t).map Prod.snd

/-- What one iteration of the `publish` loop records for one handler: normal
completion, or a caught-and-logged exception (`events.py` lines 138-146). -/
inductive HandlerOutcome
  | ok
  | caught (msg : String)
deriving DecidableEq, Repr

/-- Run one handler inside the per-handler `try`/`except`. -/
def runHandlerCaught (h : Handler) (e : BusEvent) : HandlerOutcome :=
  match h e with
  | .ok _ => .ok
  | .error m => .caught m

/-- The `for handler in handlers` loop of `publish`: each handler runs inside
its own `try`/`except`; an uncaught exception would surface as `.error` of
the whole dispatch, but every call is wrapped. -/
def dispatchList (e : BusEvent) : List Handler → Except String (List HandlerOutcome)
  | [] => .ok []
  | h :: hs => do
      let o := runHandlerCaught h e
      let rest ← dispatchList e hs
      return o :: rest

/-- Model of `EventBus.publish` (`events.py` lines 121-146): snapshot the handlers for
the event's exact runtime type, then run them sequentially. -/
def publish (bus : Bus) (e : BusEvent) : Except String (List HandlerOutcome) :=
  dispatchList e (handlersFor bus e.tag)

/-! ## Expiration-date handling of the signal parser
(`src/trading/signal_parser.py`)

Python `datetime.date` values are modelled with a proleptic-Gregorian
calendar record; the `date(...)` constructor, which raises `ValueError` on an
invalid combination, becomes `mkDate`. -/

/-- A calendar date (year, month, day). -/
structure Date where
  year : ℤ
  month : ℕ
  day : ℕ
deriving DecidableEq, Repr

/-- Gregorian leap-year rule. -/
def isLeap (y : ℤ) : Bool := y % 4 = 0 && (y % 100 ≠ 0 || y % 400 = 0)

/-- Days in a month of a given year. -/
def daysInMonth (y : ℤ) (m : ℕ) : ℕ :=
  if m = 2 then (if isLeap y then 29 else 28)
  else if m = 4 ∨ m = 6 ∨ m = 9 ∨ m = 11 then 30
  else 31

/-- Whether (year, month, day) denotes a real calendar date. -/
def Date.valid (d : Date) : Bool :=
  decide (1 ≤ d.month) && decide (d.month ≤ 12) &&
  decide (1 ≤ d.day) && decide (d.day ≤ daysInMonth d.year d.month)

/-- The Python `datetime.date(y, m, d)` constructor: raises `ValueError` on
an invalid combination (e.g. February 29 of a non-leap year). -/
def mkDate (y : ℤ) (m d : ℕ) : Except String Date :=
  if Date.valid ⟨y, m, d⟩ then .ok ⟨y, m, d⟩
  else .error "day is out of range for month"

/-- Chronological `≤` on dates (Python's `date.__le__`), lexicographic on
(year, month, day). -/
def Date.leb (a b : Date) : Bool :=
  decide (a.year < b.year) ||
  (decide (a.year = b.year) &&
    (decide (a.month < b.month) ||
      (decide (a.month = b.month) && decide (a.day ≤ b.day))))

/-- The shapes of expiration token accepted by the parser's expiry field
(`signal_parser.py` lines 94-109): an ISO `YYYY-MM-DD` date, `MM/DD`, or
`MM/DD/YY` (a two-digit year is expanded to `2000 + YY`; a no-year token
takes the current year). -/
inductive ExpiryToken
  | iso (y : ℤ) (m d : ℕ)
  | mmdd (m d : ℕ)
  | mmddyy (m d : ℕ) (yy : ℤ)
deriving DecidableEq, Repr

/-- First-stage parse of the expiry token into a preliminary date
(`signal_parser.py` lines 94-109): ISO dates resolve directly; `MM/DD` takes
`date.today().year`; `MM/DD/YY` expands a year below 100 to `2000 + YY`.
An impossible month/day raises `ValueError` (from `date(year, month, day)`). -/
def parse_expiry_token (today : Date) : ExpiryToken → Except String Date
  | .iso y m d => mkDate y m d
  | .mmdd m d => mkDate today.year m d
  | .mmddyy m d yy => mkDate (if yy < 100 then yy + 2000 else yy) m d

/-- Model of `_normalize_expiration` (`signal_parser.py` lines 86-114): after the
first-stage parse, a date on-or-before today has its year incremented by one
— by calling `date(dt.year + 1, dt.month, dt.day)`, which raises if that
date does not exist. -/
def normalize_expiration (today : Date) (tok : ExpiryToken) : Except String Date :=
  match parse_expiry_token today tok with
  | .error e => .error e
  | .ok dt => if dt.leb today then mkDate (dt.year + 1) dt.month dt.day else .ok dt

/-- The `TradeSignal` `_future_date` validator (`signal_parser.py` lines
79-83): reject an expiration on-or-before today. -/
def validate_future (today : Date) (d : Date) : Except String Date :=
  if d.leb today then .error "expiration_date must be in the future"
  else .ok d

/-- The expiration-date portion of `parse_discord_message`
(`signal_parser.py` lines 155-170): normalize the expiry token, then build
the `TradeSignal`, whose validator enforces a strictly-future expiration.
Any `ValueError` becomes a `SignalParserError`. -/
def parse_expiration (today : Date) (tok : ExpiryToken) : Except String Date :=
  match normalize_expiration today tok with
  | .error e => .error e
  | .ok d => validate_future today d

/-! ## Concrete instances used by witnesses and counterexamples -/

/-- The signal of spec Scenario A/D: `AAPL - $250 CALLS EXPIRATION 10/10
$1.29 STOP LOSS AT $1.00` (notional risk $29 at quantity 1, multiplier 100). -/
def sampleSignal : TradeSignal :=
  { symbol := "AAPL"
    strike := 250
    option_type := .call
    expiration_year := 2026
    expiration_month := 10
    expiration_day := 10
    entry_price := 129/100
    stop_price := 1
    raw_message := "AAPL - $250 CALLS EXPIRATION 10/10 $1.29 STOP LOSS AT $1.00" }

/-- A signal whose notional risk at quantity 1, multiplier 100 is exactly
$100 — the default `max_risk_per_trade`. -/
def capSignal : TradeSignal :=
  { sampleSignal with entry_price := 2, stop_price := 1 }

/-- A signal whose notional risk at quantity 1, multiplier 100 is $200,
strictly above the default `max_risk_per_trade`. -/
def bigSignal : TradeSignal :=
  { sampleSignal with entry_price := 3, stop_price := 1 }

/-- A signal with the stop at or above the entry (zero or negative per-unit
risk, treated as infinite downstream). -/
def invertedSignal : TradeSignal :=
  { sampleSignal with entry_price := 1, stop_price := 2 }

/-- A fixed reference value for `date.today()`. -/
def todayRef : Date := ⟨2026, 10, 12⟩

/-- One wired pipeline cycle at the default configuration for the
Scenario-D signal whose brokerage submission raises: risk check accepts, a
`RiskEvent` is published (running `on_risk`), the submission fails, and an
error `OrderEvent` is published (running `on_order`). -/
def failingStep : SysState → SysState :=
  process_alert defaultRiskConfig 1 sampleSignal (Except.error "submission failed")

/-! ## Disciplined use of the risk manager

The states of `open_positions` reachable when `register_trade` is only ever
called immediately after a `should_accept` on the same signal and quantity
that returned `accepted = True` (plus arbitrary `close_all` calls). -/

inductive Reach (cfg : RiskConfig) : List Position → Prop
  | init : Reach cfg []
  | register {ps : List Position} (sig : TradeSignal) (qty : ℤ) :
      Reach cfg ps → (should_accept cfg ps sig qty).1 = true →
      Reach cfg (register_trade cfg ps sig qty)
  | close {ps : List Position} : Reach cfg ps → Reach cfg (close_all ps)

/-! ## Helper lemmas on rounding and risk accounting -/

theorem rnd_intCast (k : ℤ) : rnd (k : ℚ) = k := by norm_num [rnd]

theorem isCenti_round2 (q : ℚ) : IsCenti (round2 q) := ⟨rnd (q * 100), rfl⟩

theorem isCenti_zero : IsCenti 0 := ⟨0, by norm_num⟩

theorem IsCenti.add {a b : ℚ} (ha : IsCenti a) (hb : IsCenti b) : IsCenti (a + b) := by
  obtain ⟨j, rfl⟩ := ha
  obtain ⟨k, rfl⟩ := hb
  exact ⟨j + k, by push_cast; ring⟩

/-- The map `round2` is the identity on values that are already exact multiples of
1/100 — in particular on any sum of previously rounded position risks. -/
theorem IsCenti.round2_eq {q : ℚ} (h : IsCenti q) : round2 q = q := by
  obtain ⟨k, rfl⟩ := h
  have h100 : ((k : ℚ) / 100) * 100 = (k : ℚ) := by field_simp
  rw [round2, h100, rnd_intCast]

theorem totalRisk_nil : totalRisk [] = 0 := rfl

theorem totalRisk_append (ps : List Position) (p : Position) :
    totalRisk (ps ++ [p]) = totalRisk ps + p.risk := by
  simp [totalRisk]

theorem isCenti_totalRisk {ps : List Position} (h : ∀ p ∈ ps, IsCenti p.risk) :
    IsCenti (totalRisk ps) := by
  induction ps with
  | nil => exact isCenti_zero
  | cons p ps ih =>
      rw [totalRisk, List.map_cons, List.sum_cons]
      exact (h p (List.mem_cons_self p ps)).add
        (ih fun q hq => h q (List.mem_cons_of_mem p hq))

theorem isCenti_risk_contribution (cfg : RiskConfig) (sig : TradeSignal) (qty : ℤ) :
    IsCenti (risk_contribution cfg sig qty) := by
  unfold risk_contribution
  cases h : calculate_trade_risk cfg sig qty with
  | inf => exact isCenti_zero
  | fin q =>
      show IsCenti (if q < cfg.max_risk_per_trade then q else 0)
      split_ifs with hlt
      · simp only [calculate_trade_risk] at h
        split_ifs at h
        injection h with h'
        rw [← h']
        exact isCenti_round2 _
      · exact isCenti_zero

/-- Characterisation of an accepting `should_accept`: all three checks pass. -/
theorem should_accept_fst_true (cfg : RiskConfig) (ps : List Position)
    (sig : TradeSignal) (qty : ℤ) :
    (should_accept cfg ps sig qty).1 = true ↔
      (ps.length : ℤ) < cfg.max_open_positions ∧
      ¬ (calculate_trade_risk cfg sig qty).gtQ cfg.max_risk_per_trade ∧
      round2 (totalRisk ps) + risk_contribution cfg sig qty < cfg.max_total_risk := by
  simp only [should_accept]
  split_ifs with h1 h2 h3
  · exact iff_of_false (by simp) fun ⟨hlt, _, _⟩ => absurd h1 (not_le.2 hlt)
  · exact iff_of_false (by simp) fun ⟨_, hng, _⟩ => hng h2
  · exact iff_of_false (by simp) fun ⟨_, _, hlt⟩ => absurd h3 (not_le.2 hlt)
  · exact iff_of_true rfl ⟨lt_of_not_ge h1, h2, lt_of_not_ge h3⟩

/-- Every position recorded by disciplined use carries a `round2`-rounded
risk, hence an exact multiple of 1/100. -/
theorem reach_centi {cfg : RiskConfig} {ps : List Position} (h : Reach cfg ps) :
    ∀ p ∈ ps, IsCenti p.risk := by
  induction h with
  | init => intro p hp; exact absurd hp (List.not_mem_nil p)
  | register sig qty hr hacc ih =>
      intro p hp
      rw [register_trade] at hp
      rcases List.mem_append.1 hp with hmem | hmem
      · exact ih p hmem
      · rcases List.mem_singleton.1 hmem with rfl
        exact isCenti_round2 _
  | close hr ih => intro p hp; exact absurd hp (List.not_mem_nil p)

/-! ## Claim theorems: risk engine -/

/-- C4: for every signal with `stop_price ≥ entry_price`, every quantity and
every configuration (all modelled `max_risk_per_trade` values are finite),
`should_accept` rejects regardless of the open positions and the other
limits; the notional risk is the `float("inf")` marker. -/
theorem stop_at_or_above_entry_always_rejected (cfg : RiskConfig)
    (ps : List Position) (sig : TradeSignal) (qty : ℤ)
    (h : sig.entry_price ≤ sig.stop_price) :
    (should_accept cfg ps sig qty).1 = false ∧
    calculate_trade_risk cfg sig qty = TradeRisk.inf := by
  have hinf : calculate_trade_risk cfg sig qty = TradeRisk.inf := by
    simp only [calculate_trade_risk]
    rw [if_pos (sub_nonpos.2 h)]
  refine ⟨?_, hinf⟩
  cases hb : (should_accept cfg ps sig qty).1 with
  | false => rfl
  | true =>
      have hng := ((should_accept_fst_true cfg ps sig qty).1 hb).2.1
      rw [hinf] at hng
      exact absurd trivial hng

/-- Witness for C4 at a concrete inverted signal (entry $1, stop $2). -/
theorem stop_at_or_above_entry_always_rejected_witness :
    invertedSignal.entry_price ≤ invertedSignal.stop_price ∧
    (should_accept defaultRiskConfig [] invertedSignal 1).1 = false :=
  ⟨by norm_num [invertedSignal, sampleSignal],
   (stop_at_or_above_entry_always_rejected defaultRiskConfig [] invertedSignal 1
      (by norm_num [invertedSignal, sampleSignal])).1⟩

/-- C2 counterexample: with the default limits, a trade whose notional risk
equals `max_risk_per_trade` exactly ($100) passes the per-trade check (which
is strict) and is accepted with risk contribution 0 — the claim says any
trade with notional risk ≥ `max_risk_per_trade` is rejected while the
position count is below the cap. -/
theorem per_trade_cap_equality_accepted :
    calculate_trade_risk defaultRiskConfig capSignal 1 =
      TradeRisk.fin defaultRiskConfig.max_risk_per_trade ∧
    ((([] : List Position).length : ℤ) < defaultRiskConfig.max_open_positions) ∧
    (should_accept defaultRiskConfig [] capSignal 1).1 = true := by
  refine ⟨?_, by norm_num [defaultRiskConfig], ?_⟩
  · norm_num [calculate_trade_risk, capSignal, sampleSignal, defaultRiskConfig,
      round2, rnd]
  · norm_num [should_accept, calculate_trade_risk, risk_contribution,
      TradeRisk.gtQ, capSignal, sampleSignal, defaultRiskConfig, round2, rnd,
      totalRisk]

/-- C2 amended: a trade whose notional risk is *strictly greater than*
`max_risk_per_trade` (or infinite) is rejected by `should_accept` whenever
the open-position count is below `max_open_positions`; a trade exactly at
the cap passes the per-trade check, so the step-3 `else 0` contribution
branch does apply to accepted trades. -/
theorem per_trade_excess_rejected (cfg : RiskConfig) (ps : List Position)
    (sig : TradeSignal) (qty : ℤ)
    (hcount : (ps.length : ℤ) < cfg.max_open_positions)
    (hrisk : (calculate_trade_risk cfg sig qty).gtQ cfg.max_risk_per_trade) :
    (should_accept cfg ps sig qty).1 = false := by
  cases hb : (should_accept cfg ps sig qty).1 with
  | false => rfl
  | true => exact absurd hrisk ((should_accept_fst_true cfg ps sig qty).1 hb).2.1

/-- Witness for the amended C2 at a $200-risk signal against the default
$100 per-trade cap. -/
theorem per_trade_excess_rejected_witness :
    ((([] : List Position).length : ℤ) < defaultRiskConfig.max_open_positions) ∧
    (calculate_trade_risk defaultRiskConfig bigSignal 1).gtQ
      defaultRiskConfig.max_risk_per_trade ∧
    (should_accept defaultRiskConfig [] bigSignal 1).1 = false := by
  have hcount : ((([] : List Position).length : ℤ) < defaultRiskConfig.max_open_positions) := by
    norm_num [defaultRiskConfig]
  have hrisk : (calculate_trade_risk defaultRiskConfig bigSignal 1).gtQ
      defaultRiskConfig.max_risk_per_trade := by
    norm_num [calculate_trade_risk, bigSignal, sampleSignal, defaultRiskConfig,
      round2, rnd, TradeRisk.gtQ]
  exact ⟨hcount, hrisk,
    per_trade_excess_rejected defaultRiskConfig [] bigSignal 1 hcount hrisk⟩

/-- C3: in every position list reachable by registering only trades that
`should_accept` accepted (with arbitrary `close_all` calls), the sum of the
recorded risks never exceeds `max_total_risk` (stated for a non-negative
configured limit; the initial empty state already violates a negative one). -/
theorem total_risk_never_exceeded (cfg : RiskConfig) (ps : List Position)
    (hreach : Reach cfg ps) (hmax : 0 ≤ cfg.max_total_risk) :
    totalRisk ps ≤ cfg.max_total_risk := by
  induction hreach with
  | init => simpa [totalRisk_nil] using hmax
  | @register ps sig qty hr hacc ih =>
      rw [register_trade, totalRisk_append]
      show totalRisk ps + round2 (risk_contribution cfg sig qty) ≤ cfg.max_total_risk
      have hcenti : IsCenti (totalRisk ps) := isCenti_totalRisk (reach_centi hr)
      have hrc := isCenti_risk_contribution cfg sig qty
      have hcond := ((should_accept_fst_true cfg ps sig qty).1 hacc).2.2
      rw [hcenti.round2_eq] at hcond
      rw [hrc.round2_eq]
      linarith
  | close hr ih => simpa [close_all, totalRisk_nil] using hmax

/-- Witness for C3: the default configuration after registering the accepted
Scenario-D trade ($29 of risk against the $300 total cap). -/
theorem total_risk_never_exceeded_witness :
    (0 : ℚ) ≤ defaultRiskConfig.max_total_risk ∧
    totalRisk (register_trade defaultRiskConfig [] sampleSignal 1) ≤
      defaultRiskConfig.max_total_risk := by
  have hacc : (should_accept defaultRiskConfig [] sampleSignal 1).1 = true := by
    norm_num [should_accept, calculate_trade_risk, risk_contribution,
      TradeRisk.gtQ, sampleSignal, defaultRiskConfig, round2, rnd, totalRisk]
  have hmax : (0 : ℚ) ≤ defaultRiskConfig.max_total_risk := by
    norm_num [defaultRiskConfig]
  exact ⟨hmax, total_risk_never_exceeded defaultRiskConfig _
    (Reach.register sampleSignal 1 Reach.init hacc) hmax⟩

/-- C10: `register_trade` never fails or rejects — for every configuration,
position list, signal and quantity it appends exactly one `Position`,
keeping the existing list (so direct calls bypass every limit check); and
whenever the notional risk is at or above `max_risk_per_trade`, including
the infinite-risk case `stop_price ≥ entry_price`, the appended position
silently records risk `0.0`. -/
theorem register_trade_never_rejects (cfg : RiskConfig) (ps : List Position)
    (sig : TradeSignal) (qty : ℤ) :
    (register_trade cfg ps sig qty).length = ps.length + 1 ∧
    (register_trade cfg ps sig qty).take ps.length = ps ∧
    (∀ r : ℚ, calculate_trade_risk cfg sig qty = TradeRisk.fin r →
      cfg.max_risk_per_trade ≤ r →
      (register_trade cfg ps sig qty).getLast? = some ⟨sig.symbol, 0⟩) ∧
    (calculate_trade_risk cfg sig qty = TradeRisk.inf →
      (register_trade cfg ps sig qty).getLast? = some ⟨sig.symbol, 0⟩) := by
  refine ⟨by simp [register_trade], by simp [register_trade], ?_, ?_⟩
  · intro r hfin hge
    have hrc : risk_contribution cfg sig qty = 0 := by
      simp only [risk_contribution, hfin]
      rw [if_neg (not_lt.2 hge)]
    simp [register_trade, hrc, isCenti_zero.round2_eq]
  · intro hinf
    have hrc : risk_contribution cfg sig qty = 0 := by
      simp only [risk_contribution, hinf]
    simp [register_trade, hrc, isCenti_zero.round2_eq]

/-- Witness for C10 at the infinite-risk signal: the position is recorded
anyway, with risk 0. -/
theorem register_trade_never_rejects_witness :
    (register_trade defaultRiskConfig [] invertedSignal 1).length = 1 ∧
    (register_trade defaultRiskConfig [] invertedSignal 1).getLast? =
      some ⟨invertedSignal.symbol, 0⟩ := by
  have h := register_trade_never_rejects defaultRiskConfig [] invertedSignal 1
  exact ⟨h.1, h.2.2.2 (by norm_num [calculate_trade_risk, invertedSignal, sampleSignal])⟩

/-! ## Claim theorems: emergency controls -/

/-- C7: once `trading_enabled` is false it stays false under every sequence
of `EmergencyControls` operations — no operation transitions it false→true —
and `reset_failures` changes only the failure counter, never
`trading_enabled` (nor the threshold). -/
theorem trading_never_reenabled :
    (∀ (ops : List CtrlOp) (s : SysState), s.1.trading_enabled = false →
      (applyCtrlOps s ops).1.trading_enabled = false) ∧
    (∀ c : ControlsState,
      (reset_failures c).trading_enabled = c.trading_enabled ∧
      (reset_failures c).max_consecutive_failures = c.max_consecutive_failures) := by
  constructor
  · intro ops
    induction ops with
    | nil => exact fun s h => h
    | cons op ops ih =>
        intro s h
        show (applyCtrlOps (applyCtrlOp s op) ops).1.trading_enabled = false
        apply ih
        cases op with
        | recordFailure =>
            simp only [applyCtrlOp, record_failure]
            split_ifs
            · rfl
            · exact h
        | resetFailures => exact h
        | isEnabled => exact h
  · exact fun c => ⟨rfl, rfl⟩

/-- Witness for C7: a tripped state stays tripped across a reset, a further
failure and a read. -/
theorem trading_never_reenabled_witness :
    (applyCtrlOps
      (({ max_consecutive_failures := 3, trading_enabled := false,
          consecutive_failures := 0 } : ControlsState), ([] : List Position))
      [CtrlOp.resetFailures, CtrlOp.recordFailure, CtrlOp.isEnabled]).1.trading_enabled
      = false :=
  trading_never_reenabled.1 _ _ rfl

/-- C6: from the initial emergency state with threshold 3, three successive
`record_failure` calls — as driven by three error-carrying `OrderEvents`
through the `on_order` subscriber, with no intervening reset — disable
trading and empty the open-position list, whatever positions were open. -/
theorem three_error_orders_trip_breaker (ps : List Position) :
    on_order true (on_order true (on_order true (initControls 3, ps))) =
      ({ max_consecutive_failures := 3, trading_enabled := false,
         consecutive_failures := 3 }, []) := by
  norm_num [on_order, record_failure, initControls, close_all]

/-! ## Claim theorems: the wired pipeline -/

/-- C1 is violated by the wiring of `main_async`: because `on_risk` resets
the failure counter on every *accepted* `RiskEvent`, and each submission
failure is preceded by its own accepted risk check, three consecutive
accepted-then-failed alerts leave `consecutive_failures` at 1 and
`trading_enabled` still true — the circuit breaker never trips on this
path.  The first conjunct records that each alert's risk check accepts. -/
theorem accepted_then_failed_alerts_never_trip :
    (should_accept defaultRiskConfig [] sampleSignal 1).1 = true ∧
    (failingStep (failingStep (failingStep (initControls 3, [])))).1.trading_enabled
      = true ∧
    (failingStep (failingStep (failingStep (initControls 3, [])))).1.consecutive_failures
      = 1 := by
  have hsa : should_accept defaultRiskConfig [] sampleSignal 1 = (true, "Accepted") := by
    norm_num [should_accept, calculate_trade_risk, risk_contribution,
      TradeRisk.gtQ, sampleSignal, defaultRiskConfig, round2, rnd, totalRisk]
  have hstep : ∀ k : ℤ,
      failingStep ((⟨3, true, k⟩ : ControlsState), ([] : List Position)) =
        ((⟨3, true, 1⟩ : ControlsState), ([] : List Position)) := by
    intro k
    norm_num [failingStep, process_alert, hsa, on_risk, on_order,
      record_failure, reset_failures, close_all]
  rw [show (initControls 3, ([] : List Position)) =
      ((⟨3, true, 0⟩ : ControlsState), ([] : List Position)) from rfl,
    hstep 0, hstep 1, hstep 1]
  exact ⟨by rw [hsa], rfl, rfl⟩

/-- C5: when the risk check accepts but `submit_bracket_order` raises,
`handle_alert` publishes the unconditional `RiskEvent` followed by exactly
one `OrderEvent`, whose response is the error marker; `register_trade` is
not called and the open-position list is returned unchanged. -/
theorem failed_submission_publishes_error_only (cfg : RiskConfig) (qty : ℤ)
    (ps : List Position) (sig : TradeSignal) (e : String)
    (hacc : (should_accept cfg ps sig qty).1 = true) :
    handle_alert cfg qty ps sig (Except.error e) =
      ([PubEvent.riskEv sig true (should_accept cfg ps sig qty).2,
        PubEvent.orderEv sig (OrderResponse.error e)], ps) ∧
    ((handle_alert cfg qty ps sig (Except.error e)).1.filter PubEvent.isOrderEvent) =
      [PubEvent.orderEv sig (OrderResponse.error e)] ∧
    (handle_alert cfg qty ps sig (Except.error e)).2 = ps := by
  rcases hsa : should_accept cfg ps sig qty with ⟨b, r⟩
  rw [hsa] at hacc
  simp only at hacc
  subst hacc
  have hmain : handle_alert cfg qty ps sig (Except.error e) =
      ([PubEvent.riskEv sig true r, PubEvent.orderEv sig (OrderResponse.error e)], ps) := by
    simp [handle_alert, hsa]
  refine ⟨?_, ?_, ?_⟩
  · rw [hmain]
  · rw [hmain]
    simp [PubEvent.isOrderEvent]
  · rw [hmain]

/-- Witness for C5: the Scenario-D accepted signal with a raising brokerage
call leaves the empty position list empty and publishes the error order
event. -/
theorem failed_submission_publishes_error_only_witness :
    (should_accept defaultRiskConfig [] sampleSignal 1).1 = true ∧
    handle_alert defaultRiskConfig 1 [] sampleSignal (Except.error "boom") =
      ([PubEvent.riskEv sampleSignal true "Accepted",
        PubEvent.orderEv sampleSignal (OrderResponse.error "boom")], []) := by
  have hsa : should_accept defaultRiskConfig [] sampleSignal 1 = (true, "Accepted") := by
    norm_num [should_accept, calculate_trade_risk, risk_contribution,
      TradeRisk.gtQ, sampleSignal, defaultRiskConfig, round2, rnd, totalRisk]
  have hacc : (should_accept defaultRiskConfig [] sampleSignal 1).1 = true := by
    rw [hsa]
  refine ⟨hacc, ?_⟩
  have h := (failed_submission_publishes_error_only defaultRiskConfig 1 []
    sampleSignal "boom" hacc).1
  rw [h, hsa]

/-! ## Claim theorems: event bus -/

/-- The dispatch loop records one outcome per handler, in order, and never
propagates a handler's exception. -/
theorem dispatchList_ok (e : BusEvent) (hs : List Handler) :
    dispatchList e hs = Except.ok (hs.map fun h => runHandlerCaught h e) := by
  induction hs with
  | nil => rfl
  | cons h hs ih =>
      simp only [dispatchList, ih, List.map_cons]
      rfl

/-- C8: `publish` runs exactly the handlers registered for the event's exact
runtime type, in registration order, and always returns `ok` — one isolated
outcome per handler, raising handlers included; with zero subscribers for
the type it runs nothing and returns normally.  `subscribe` appends to the
handlers of its own type only, preserving registration order. -/
theorem publish_runs_all_handlers (bus : Bus) (e : BusEvent) :
    publish bus e =
      Except.ok ((handlersFor bus e.tag).map fun h => runHandlerCaught h e) ∧
    (handlersFor bus e.tag = [] → publish bus e = Except.ok []) ∧
    (∀ (t : EventTag) (h : Handler),
      handlersFor (subscribe bus t h) e.tag =
        if t = e.tag then handlersFor bus e.tag ++ [h]
        else handlersFor bus e.tag) := by
  refine ⟨dispatchList_ok e _, ?_, ?_⟩
  · intro hnil
    rw [publish, hnil]
    rfl
  · intro t h
    simp only [handlersFor, subscribe, List.filter_append, List.map_append]
    split_ifs with ht
    · subst ht
      simp
    · simp [ht]

/-- Witness for C8: publishing on an empty registry returns normally with no
handler run. -/
theorem publish_runs_all_handlers_witness :
    publish ([] : Bus) ⟨EventTag.alertEvent, "alert"⟩ = Except.ok [] :=
  (publish_runs_all_handlers [] ⟨EventTag.alertEvent, "alert"⟩).2.1 rfl

/-! ## Claim theorems: expiration handling -/

/-- C9 counterexample: a February 29 expiration that lies in the past is not
rolled forward by one year — `date(dt.year + 1, 2, 29)` does not exist, so
`_normalize_expiration` raises (surfacing as a parse error) instead of
producing the year-incremented date the claim describes. -/
theorem expiration_feb29_roll_errors :
    parse_expiry_token todayRef (ExpiryToken.iso 2024 2 29) =
      Except.ok ⟨2024, 2, 29⟩ ∧
    Date.leb ⟨2024, 2, 29⟩ todayRef = true ∧
    normalize_expiration todayRef (ExpiryToken.iso 2024 2 29) =
      Except.error "day is out of range for month" := by
  refine ⟨rfl, by decide, rfl⟩

/-- C9 amended: a successfully tokenised expiration on-or-before today is
rolled forward by incrementing its year by exactly one *when the resulting
month/day exists in that next year* (otherwise the roll itself raises, and
the message yields a parse error); a strictly-future date is kept as is; and
every expiration date the parser returns is strictly after today. -/
theorem expiration_roll_and_future (today dt : Date) (tok : ExpiryToken)
    (hp : parse_expiry_token today tok = Except.ok dt) :
    (dt.leb today = true →
      normalize_expiration today tok = mkDate (dt.year + 1) dt.month dt.day) ∧
    (dt.leb today = false → normalize_expiration today tok = Except.ok dt) ∧
    (∀ d : Date, parse_expiration today tok = Except.ok d →
      d.leb today = false) := by
  have hnorm : normalize_expiration today tok =
      (if dt.leb today then mkDate (dt.year + 1) dt.month dt.day
       else Except.ok dt) := by
    rw [normalize_expiration, hp]
  refine ⟨?_, ?_, ?_⟩
  · intro hle
    rw [hnorm, if_pos hle]
  · intro hgt
    rw [hnorm, if_neg (by rw [hgt]; exact Bool.false_ne_true)]
  · intro d hd
    cases hn : normalize_expiration today tok with
    | error msg => simp [parse_expiration, hn] at hd
    | ok dnorm =>
        simp only [parse_expiration, hn, validate_future] at hd
        split_ifs at hd with hfut
        injection hd with hd'
        subst hd'
        exact Bool.eq_false_iff.2 hfut

/-- Witness for C9 (amended): an `MM/DD` token whose month/day already
passed this year is rolled to the same month/day of next year and accepted. -/
theorem expiration_roll_and_future_witness :
    parse_expiry_token todayRef (ExpiryToken.mmdd 10 10) =
      Except.ok ⟨2026, 10, 10⟩ ∧
    Date.leb ⟨2026, 10, 10⟩ todayRef = true ∧
    normalize_expiration todayRef (ExpiryToken.mmdd 10 10) =
      Except.ok ⟨2027, 10, 10⟩ := by
  have hp : parse_expiry_token todayRef (ExpiryToken.mmdd 10 10) =
      Except.ok ⟨2026, 10, 10⟩ := rfl
  have hle : Date.leb ⟨2026, 10, 10⟩ todayRef = true := by decide
  have h := (expiration_roll_and_future todayRef ⟨2026, 10, 10⟩
    (ExpiryToken.mmdd 10 10) hp).1 hle
  exact ⟨hp, hle, h.trans rfl⟩

end TradeBot
